import Mathlib

/-!
Verification of the worker-router crate: a minimal HTTP router for
Cloudflare Workers (src/lib.rs). The router owns a shared state and an
ordered list of routes (method, compiled pattern, handler); dispatch is a
linear first-match scan.

External collaborators (the urlpattern crate and the worker runtime's
Request/Response types) are modelled from the spec's boundary description;
definitions carrying a doc comment starting with "Modelled from the spec"
are those models. Everything else is translated directly from src/lib.rs.
-/

namespace WorkerRouter

/-- HTTP method enumeration, as in the worker runtime (the nine verbs for
which the router generates a registration entry point). -/
inductive Method
  | Head | Get | Post | Put | Patch | Delete | Options | Connect | Trace
deriving DecidableEq, Repr

/-- Modelled from the spec: one segment of a URL path template as understood
by the external urlpattern capability. Literal segments match verbatim; a
segment written with a leading colon is a named parameter matching exactly
one path segment and binding it to the name. -/
inductive Segment
  | lit (s : String)
  | param (name : String)
deriving DecidableEq, Repr

/-- Route pattern: a compiled, immutable matcher over a URL path template
(wraps the external urlpattern capability, modelled as a segment list). -/
structure Pattern where
  segments : List Segment
deriving DecidableEq, Repr

/-- Split a character list at each slash. -/
def splitAux : List Char → List Char → List String
  | [], acc => [String.mk acc.reverse]
  | '/' :: rest, acc => String.mk acc.reverse :: splitAux rest []
  | c :: rest, acc => splitAux rest (c :: acc)

/-- Modelled from the spec: decompose a path into its non-empty
slash-separated segments. -/
def splitPath (s : String) : List String :=
  (splitAux s.toList []).filter (fun seg => seg ≠ "")

/-- Modelled from the spec: compile one template segment. The parameter
sigil with no name following it is a malformed template. -/
def compileSegment (s : String) : Except String Segment :=
  if s = ":" then
    .error "failed to parse route pattern: missing parameter name"
  else if s.toList.headD ' ' = ':' then
    .ok (Segment.param (String.mk s.toList.tail))
  else
    .ok (Segment.lit s)

/-- Compile every segment of a template, failing at the first malformed
segment. -/
def compileSegments : List String → Except String (List Segment)
  | [] => .ok []
  | s :: rest => do
    let seg ← compileSegment s
    let segs ← compileSegments rest
    return seg :: segs

/-- Construct a route pattern using a URL path (src/lib.rs `path`): build a
pattern over the pathname component and surface a parse failure as an
error, synchronously at compile time. Pure construction, no side effects. -/
def path (v : String) : Except String Pattern := do
  let segs ← compileSegments (splitPath v)
  return Pattern.mk segs

/-- Modelled from the spec: a parsed URL. Route patterns built by `path`
constrain only the pathname component, so only the pathname participates
in matching. -/
structure Url where
  pathname : String
deriving DecidableEq, Repr

/-- Modelled from the spec: evaluate a compiled pattern against the
segments of a concrete path, returning the named-parameter bindings on a
match. Evaluation is pure: it never mutates the pattern. -/
def matchSegments : List Segment → List String → Option (List (String × String))
  | [], [] => some []
  | Segment.lit s :: ps, seg :: segs =>
      if s = seg then matchSegments ps segs else none
  | Segment.param n :: ps, seg :: segs =>
      (matchSegments ps segs).map (fun binds => (n, seg) :: binds)
  | _, _ => none

/-- Modelled from the spec: evaluate a compiled pattern against a parsed
URL (the urlpattern exec capability on a URL input). -/
def Pattern.exec (p : Pattern) (url : Url) : Option (List (String × String)) :=
  matchSegments p.segments (splitPath url.pathname)

/-- Modelled from the spec: a response as observed through the router's
contract — a status code and a body. -/
structure Response where
  status : Nat
  body : String
deriving DecidableEq, Repr

/-- Modelled from the spec: an incoming request exposes its method and the
result of parsing its URL (the worker Request's url accessor may fail). -/
structure Request where
  method : Method
  url : Except String Url

/-- Handler type (src/lib.rs `Handler<State>`): a callable taking the
request and a handle to the shared state, producing a response or an
error. -/
def Handler (State : Type) : Type :=
  Request → State → Except String Response

/-- A registered route (src/lib.rs `Route<State>`): one pattern, one
handler, one method. -/
structure Route (State : Type) where
  pattern : Pattern
  handler : Handler State
  method : Method

/-- The HTTP router (src/lib.rs `Router<State>`): the shared state and the
ordered route list. -/
structure Router (State : Type) where
  state : State
  routes : List (Route State)

/-- Create a new router with a state and an empty route list
(src/lib.rs `Router::new_with_state`). -/
def Router.new_with_state {State : Type} (state : State) : Router State :=
  { routes := [], state := state }

/-- Shared insertion operation (src/lib.rs `Router::insert`): push one new
route at the end of the route list and return the router. -/
def Router.insert {State : Type} (r : Router State) (method : Method)
    (pattern : Pattern) (handler : Handler State) : Router State :=
  { r with routes := r.routes ++ [{ method := method, pattern := pattern, handler := handler }] }

/-- Per-method registration entry point generated by insert_method!
(HEAD). -/
def Router.head {State : Type} (r : Router State) (pattern : Pattern)
    (handler : Handler State) : Router State :=
  r.insert Method.Head pattern handler

/-- Per-method registration entry point generated by insert_method!
(GET). -/
def Router.get {State : Type} (r : Router State) (pattern : Pattern)
    (handler : Handler State) : Router State :=
  r.insert Method.Get pattern handler

/-- Per-method registration entry point generated by insert_method!
(POST). -/
def Router.post {State : Type} (r : Router State) (pattern : Pattern)
    (handler : Handler State) : Router State :=
  r.insert Method.Post pattern handler

/-- Per-method registration entry point generated by insert_method!
(PUT). -/
def Router.put {State : Type} (r : Router State) (pattern : Pattern)
    (handler : Handler State) : Router State :=
  r.insert Method.Put pattern handler

/-- Per-method registration entry point generated by insert_method!
(PATCH). -/
def Router.patch {State : Type} (r : Router State) (pattern : Pattern)
    (handler : Handler State) : Router State :=
  r.insert Method.Patch pattern handler

/-- Per-method registration entry point generated by insert_method!
(DELETE). -/
def Router.delete {State : Type} (r : Router State) (pattern : Pattern)
    (handler : Handler State) : Router State :=
  r.insert Method.Delete pattern handler

/-- Per-method registration entry point generated by insert_method!
(OPTIONS). -/
def Router.options {State : Type} (r : Router State) (pattern : Pattern)
    (handler : Handler State) : Router State :=
  r.insert Method.Options pattern handler

/-- Per-method registration entry point generated by insert_method!
(CONNECT). -/
def Router.connect {State : Type} (r : Router State) (pattern : Pattern)
    (handler : Handler State) : Router State :=
  r.insert Method.Connect pattern handler

/-- Per-method registration entry point generated by insert_method!
(TRACE). -/
def Router.trace {State : Type} (r : Router State) (pattern : Pattern)
    (handler : Handler State) : Router State :=
  r.insert Method.Trace pattern handler

/-- The dispatch loop of src/lib.rs `Router::run`: scan the route list in
order; skip a route whose method differs from the request's; otherwise
evaluate its pattern against the URL and, on a match, return the handler's
result; after a full scan with no match, the 404 "page not found"
response, as a successful result. -/
def runRoutes {State : Type} (state : State) (req : Request) (url : Url) :
    List (Route State) → Except String Response
  | [] => .ok { status := 404, body := "page not found" }
  | route :: rest =>
    if route.method ≠ req.method then
      runRoutes state req url rest
    else
      match route.pattern.exec url with
      | some _ => route.handler req state
      | none => runRoutes state req url rest

/-- Dispatch (src/lib.rs `Router::run`): parse the request URL, propagating
a parse failure as an error, then run the first-match scan. -/
def Router.run {State : Type} (r : Router State) (req : Request) : Except String Response :=
  match req.url with
  | .error e => .error e
  | .ok url => runRoutes r.state req url r.routes

/-- A route matches a request when its method equals the request's method
and its pattern matches the request's URL. -/
def routeMatches {State : Type} (route : Route State) (req : Request) (url : Url) : Prop :=
  route.method = req.method ∧ (route.pattern.exec url).isSome = true

instance {State : Type} (route : Route State) (req : Request) (url : Url) :
    Decidable (routeMatches route req url) :=
  inferInstanceAs (Decidable (_ ∧ _))

/-- A well-formed template: no segment is a bare parameter sigil. -/
def wellFormedTemplate (v : String) : Prop :=
  ∀ s ∈ splitPath v, s ≠ ":"

instance (v : String) : Decidable (wellFormedTemplate v) :=
  inferInstanceAs (Decidable (∀ s ∈ splitPath v, s ≠ ":"))

instance {α β : Type} [DecidableEq α] [DecidableEq β] : DecidableEq (Except α β) := fun a b =>
  match a, b with
  | .ok x, .ok y =>
      if h : x = y then isTrue (by rw [h]) else isFalse (by simp [h])
  | .error x, .error y =>
      if h : x = y then isTrue (by rw [h]) else isFalse (by simp [h])
  | .ok _, .error _ => isFalse (by simp)
  | .error _, .ok _ => isFalse (by simp)

/-- A builder chain: fold a list of (method, pattern, handler) registrations
over a router, one insert per element. -/
def applyInserts {State : Type} (r : Router State) :
    List (Method × Pattern × Handler State) → Router State
  | [] => r
  | mph :: rest => applyInserts (r.insert mph.1 mph.2.1 mph.2.2) rest

/-! Concrete fixtures used by the witness theorems. -/

def demoState : Nat := 7

def urlHello : Url := ⟨"/hello"⟩

def patHello : Pattern := ⟨[Segment.lit "hello"]⟩

def patUserId : Pattern := ⟨[Segment.lit "users", Segment.param "id"]⟩

def urlUser42 : Url := ⟨"/users/42"⟩

def handlerA : Handler Nat := fun _ _ => .ok { status := 200, body := "first" }

def handlerB : Handler Nat := fun _ _ => .ok { status := 200, body := "second" }

def handlerErr : Handler Nat := fun _ _ => .error "handler failure"

def reqGetHello : Request := { method := Method.Get, url := .ok urlHello }

def reqPostHello : Request := { method := Method.Post, url := .ok urlHello }

def reqBadUrl : Request := { method := Method.Get, url := .error "invalid url" }

def demoRouter : Router Nat :=
  ((Router.new_with_state demoState).get patHello handlerA).get patHello handlerB

def postRouter : Router Nat :=
  (Router.new_with_state demoState).post patHello handlerA

def errRouter : Router Nat :=
  (Router.new_with_state demoState).get patHello handlerErr

def demoInserts : List (Method × Pattern × Handler Nat) :=
  [(Method.Get, patHello, handlerA)]

/-! Helper lemmas about the pattern compiler. -/

theorem compileSegment_ok_iff (s : String) :
    (∃ seg, compileSegment s = .ok seg) ↔ s ≠ ":" := by
  unfold compileSegment
  by_cases hs : s = ":"
  · simp [hs]
  · simp only [if_neg hs]
    constructor
    · intro _
      exact hs
    · intro _
      split
      · exact ⟨_, rfl⟩
      · exact ⟨_, rfl⟩

theorem compileSegments_cons_ok (s : String) (rest : List String) (seg : Segment)
    (segs : List Segment) (h1 : compileSegment s = .ok seg)
    (h2 : compileSegments rest = .ok segs) :
    compileSegments (s :: rest) = .ok (seg :: segs) := by
  unfold compileSegments
  rw [h1, h2]
  rfl

theorem compileSegments_cons_err_head (s : String) (rest : List String) (e : String)
    (h1 : compileSegment s = .error e) :
    compileSegments (s :: rest) = .error e := by
  unfold compileSegments
  rw [h1]
  rfl

theorem compileSegments_cons_err_tail (s : String) (rest : List String) (seg : Segment)
    (e : String) (h1 : compileSegment s = .ok seg)
    (h2 : compileSegments rest = .error e) :
    compileSegments (s :: rest) = .error e := by
  unfold compileSegments
  rw [h1, h2]
  rfl

theorem compileSegments_ok_iff (l : List String) :
    (∃ segs, compileSegments l = .ok segs) ↔ ∀ s ∈ l, s ≠ ":" := by
  induction l with
  | nil => simp [compileSegments]
  | cons s rest ih =>
    rw [List.forall_mem_cons, ← ih, ← compileSegment_ok_iff s]
    constructor
    · rintro ⟨segs, hsegs⟩
      cases h1 : compileSegment s with
      | error e =>
        rw [compileSegments_cons_err_head s rest e h1] at hsegs
        exact absurd hsegs (by simp)
      | ok seg =>
        cases h2 : compileSegments rest with
        | error e =>
          rw [compileSegments_cons_err_tail s rest seg e h1 h2] at hsegs
          exact absurd hsegs (by simp)
        | ok segs2 => exact ⟨⟨seg, rfl⟩, ⟨segs2, rfl⟩⟩
    · rintro ⟨⟨seg, h1⟩, ⟨segs, h2⟩⟩
      exact ⟨seg :: segs, compileSegments_cons_ok s rest seg segs h1 h2⟩

theorem path_ok (v : String) (segs : List Segment)
    (h : compileSegments (splitPath v) = .ok segs) :
    path v = .ok (Pattern.mk segs) := by
  unfold path
  rw [h]
  rfl

theorem path_err (v : String) (e : String)
    (h : compileSegments (splitPath v) = .error e) :
    path v = .error e := by
  unfold path
  rw [h]
  rfl

theorem path_ok_iff_segments (v : String) :
    (∃ p, path v = .ok p) ↔ (∃ segs, compileSegments (splitPath v) = .ok segs) := by
  constructor
  · rintro ⟨p, hp⟩
    cases h : compileSegments (splitPath v) with
    | ok segs => exact ⟨segs, rfl⟩
    | error e =>
      rw [path_err v e h] at hp
      exact absurd hp (by simp)
  · rintro ⟨segs, h⟩
    exact ⟨Pattern.mk segs, path_ok v segs h⟩

theorem path_ok_iff_wellFormed (v : String) :
    (∃ p, path v = .ok p) ↔ wellFormedTemplate v :=
  (path_ok_iff_segments v).trans (compileSegments_ok_iff (splitPath v))

/-! Helper lemmas about the dispatch loop. -/

theorem runRoutes_nil {State : Type} (state : State) (req : Request) (url : Url) :
    runRoutes state req url [] = .ok { status := 404, body := "page not found" } := rfl

theorem runRoutes_cons_skip_method {State : Type} (state : State) (req : Request) (url : Url)
    (route : Route State) (rest : List (Route State)) (h : route.method ≠ req.method) :
    runRoutes state req url (route :: rest) = runRoutes state req url rest := by
  simp [runRoutes, h]

theorem runRoutes_cons_skip_pattern {State : Type} (state : State) (req : Request) (url : Url)
    (route : Route State) (rest : List (Route State))
    (hm : route.method = req.method) (hp : route.pattern.exec url = none) :
    runRoutes state req url (route :: rest) = runRoutes state req url rest := by
  simp [runRoutes, hm, hp]

theorem runRoutes_cons_hit {State : Type} (state : State) (req : Request) (url : Url)
    (route : Route State) (rest : List (Route State))
    (hm : route.method = req.method) (hp : (route.pattern.exec url).isSome = true) :
    runRoutes state req url (route :: rest) = route.handler req state := by
  obtain ⟨res, hres⟩ := Option.isSome_iff_exists.mp hp
  simp [runRoutes, hm, hres]

theorem runRoutes_cons_no_match {State : Type} (state : State) (req : Request) (url : Url)
    (route : Route State) (rest : List (Route State))
    (h : ¬ routeMatches route req url) :
    runRoutes state req url (route :: rest) = runRoutes state req url rest := by
  by_cases hm : route.method = req.method
  · cases hp : route.pattern.exec url with
    | some res => exact absurd ⟨hm, by rw [hp]; rfl⟩ h
    | none => exact runRoutes_cons_skip_pattern state req url route rest hm hp
  · exact runRoutes_cons_skip_method state req url route rest hm

theorem runRoutes_first {State : Type} (state : State) (req : Request) (url : Url)
    (routes : List (Route State)) (i : Nat) (hi : i < routes.length)
    (hmatch : routeMatches (routes.get ⟨i, hi⟩) req url)
    (hbefore : ∀ k (hk : k < i), ¬ routeMatches (routes.get ⟨k, Nat.lt_trans hk hi⟩) req url) :
    runRoutes state req url routes = (routes.get ⟨i, hi⟩).handler req state := by
  induction routes generalizing i with
  | nil => exact absurd hi (Nat.not_lt_zero i)
  | cons route rest ih =>
    cases i with
    | zero =>
      exact runRoutes_cons_hit state req url route rest hmatch.1 hmatch.2
    | succ k =>
      rw [runRoutes_cons_no_match state req url route rest (hbefore 0 (Nat.succ_pos k))]
      exact ih k (Nat.lt_of_succ_lt_succ hi) hmatch
        (fun k' hk' => hbefore (k' + 1) (Nat.succ_lt_succ hk'))

theorem runRoutes_no_match {State : Type} (state : State) (req : Request) (url : Url)
    (routes : List (Route State))
    (hnone : ∀ route ∈ routes, ¬ routeMatches route req url) :
    runRoutes state req url routes = .ok { status := 404, body := "page not found" } := by
  induction routes with
  | nil => rfl
  | cons route rest ih =>
    rw [runRoutes_cons_no_match state req url route rest
      (hnone route (List.mem_cons_self route rest))]
    exact ih (fun rt hrt => hnone rt (List.mem_cons_of_mem route hrt))

theorem run_eq_runRoutes {State : Type} (r : Router State) (req : Request) (url : Url)
    (hurl : req.url = .ok url) :
    r.run req = runRoutes r.state req url r.routes := by
  unfold Router.run
  rw [hurl]

theorem run_eq_error {State : Type} (r : Router State) (req : Request) (e : String)
    (hurl : req.url = .error e) :
    r.run req = .error e := by
  unfold Router.run
  rw [hurl]

theorem runRoutes_method_gate {State : Type} (state : State) (req : Request) (url : Url)
    (routes : List (Route State)) (i : Nat) (hi : i < routes.length)
    (hne : (routes.get ⟨i, hi⟩).method ≠ req.method)
    (p' : Pattern) (h' : Handler State) :
    runRoutes state req url
      (routes.set i { pattern := p', handler := h', method := (routes.get ⟨i, hi⟩).method }) =
    runRoutes state req url routes := by
  induction routes generalizing i with
  | nil => rfl
  | cons route rest ih =>
    cases i with
    | zero =>
      show runRoutes state req url
        ({ pattern := p', handler := h', method := route.method } :: rest) = _
      rw [runRoutes_cons_skip_method state req url
            { pattern := p', handler := h', method := route.method } rest hne,
          runRoutes_cons_skip_method state req url route rest hne]
    | succ k =>
      show runRoutes state req url (route :: rest.set k _) = _
      by_cases hm : route.method = req.method
      · cases hp : route.pattern.exec url with
        | some res =>
          rw [runRoutes_cons_hit state req url route _ hm (by rw [hp]; rfl),
              runRoutes_cons_hit state req url route rest hm (by rw [hp]; rfl)]
        | none =>
          rw [runRoutes_cons_skip_pattern state req url route _ hm hp,
              runRoutes_cons_skip_pattern state req url route rest hm hp]
          exact ih k (Nat.lt_of_succ_lt_succ hi) hne
      · rw [runRoutes_cons_skip_method state req url route _ hm,
            runRoutes_cons_skip_method state req url route rest hm]
        exact ih k (Nat.lt_of_succ_lt_succ hi) hne

theorem applyInserts_state {State : Type} (r : Router State)
    (l : List (Method × Pattern × Handler State)) :
    (applyInserts r l).state = r.state := by
  induction l generalizing r with
  | nil => rfl
  | cons mph rest ih => exact ih (r.insert mph.1 mph.2.1 mph.2.2)

/-! The claims. -/

/-- Claim C1: dispatch is first-match-wins in registration order. When a
request (with a parseable URL) matches route i on both method and pattern,
another route j with i < j also matches, and no route before i matches,
run returns exactly route i's handler result — no later route's handler is
ever invoked. -/
theorem run_first_match_wins {State : Type} (r : Router State) (req : Request) (url : Url)
    (i j : Nat) (hi : i < r.routes.length) (hj : j < r.routes.length) (_hij : i < j)
    (hurl : req.url = .ok url)
    (hmi : routeMatches (r.routes.get ⟨i, hi⟩) req url)
    (_hmj : routeMatches (r.routes.get ⟨j, hj⟩) req url)
    (hbefore : ∀ k (hk : k < i), ¬ routeMatches (r.routes.get ⟨k, Nat.lt_trans hk hi⟩) req url) :
    r.run req = (r.routes.get ⟨i, hi⟩).handler req r.state := by
  rw [run_eq_runRoutes r req url hurl]
  exact runRoutes_first r.state req url r.routes i hi hmi hbefore

/-- Witness for C1: two GET routes on the same pattern; the first handler's
response is returned. -/
theorem run_first_match_wins_witness :
    demoRouter.run reqGetHello = .ok { status := 200, body := "first" } := by
  rw [run_first_match_wins demoRouter reqGetHello urlHello 0 1 (by decide) (by decide)
    (by decide) rfl (by decide) (by decide) (fun k hk => absurd hk (Nat.not_lt_zero k))]
  rfl

/-- Claim C2: when the URL parses and no registered route matches on both
method and pattern (the empty route list included), run returns the 404
"page not found" response as a successful result, not an error. -/
theorem run_no_match_404 {State : Type} (r : Router State) (req : Request) (url : Url)
    (hurl : req.url = .ok url)
    (hnone : ∀ route ∈ r.routes, ¬ routeMatches route req url) :
    r.run req = .ok { status := 404, body := "page not found" } := by
  rw [run_eq_runRoutes r req url hurl]
  exact runRoutes_no_match r.state req url r.routes hnone

/-- Witness for C2: a POST request against a router with only GET routes
falls through to the 404 response. -/
theorem run_no_match_404_witness :
    demoRouter.run reqPostHello = .ok { status := 404, body := "page not found" } :=
  run_no_match_404 demoRouter reqPostHello urlHello rfl (by decide)

/-- Claim C3: the method equality check precedes pattern evaluation: a route
whose method differs from the request's contributes neither a pattern
evaluation nor a handler invocation, so replacing its pattern and handler by
arbitrary ones leaves the dispatch result unchanged. -/
theorem run_method_gate {State : Type} (r : Router State) (req : Request)
    (i : Nat) (hi : i < r.routes.length)
    (hne : (r.routes.get ⟨i, hi⟩).method ≠ req.method)
    (p' : Pattern) (h' : Handler State) :
    Router.run { r with routes := r.routes.set i { pattern := p', handler := h', method := (r.routes.get ⟨i, hi⟩).method } } req
      = r.run req := by
  cases hurl : req.url with
  | error e =>
    rw [run_eq_error _ req e hurl, run_eq_error r req e hurl]
  | ok url =>
    rw [run_eq_runRoutes _ req url hurl, run_eq_runRoutes r req url hurl]
    exact runRoutes_method_gate r.state req url r.routes i hi hne p' h'

/-- Witness for C3: swapping the pattern and handler of a POST route leaves
a GET dispatch unchanged. -/
theorem run_method_gate_witness :
    Router.run { postRouter with routes := postRouter.routes.set 0 { pattern := Pattern.mk [Segment.lit "other"], handler := handlerErr, method := (postRouter.routes.get ⟨0, by decide⟩).method } } reqGetHello
      = postRouter.run reqGetHello :=
  run_method_gate postRouter reqGetHello 0 (by decide) (by decide)
    (Pattern.mk [Segment.lit "other"]) handlerErr

/-- Claim C4: a URL parse failure is returned as an error before any route
matching: the result is the parse error itself, for every route list, never
a 404 and never a handler result. -/
theorem run_url_parse_error {State : Type} (r : Router State) (req : Request) (e : String)
    (hurl : req.url = .error e) :
    r.run req = .error e :=
  run_eq_error r req e hurl

/-- Witness for C4: a request whose URL failed to parse yields that very
error from run. -/
theorem run_url_parse_error_witness :
    demoRouter.run reqBadUrl = .error "invalid url" :=
  run_url_parse_error demoRouter reqBadUrl "invalid url" rfl

/-- Claim C5: the first matched route's handler result is returned verbatim
as the router's own result, success or failure — no retry, no fallback to
later routes, no error-to-404 translation. -/
theorem run_handler_result_verbatim {State : Type} (r : Router State) (req : Request)
    (url : Url) (i : Nat) (hi : i < r.routes.length) (res : Except String Response)
    (hurl : req.url = .ok url)
    (hmatch : routeMatches (r.routes.get ⟨i, hi⟩) req url)
    (hbefore : ∀ k (hk : k < i), ¬ routeMatches (r.routes.get ⟨k, Nat.lt_trans hk hi⟩) req url)
    (hres : (r.routes.get ⟨i, hi⟩).handler req r.state = res) :
    r.run req = res := by
  rw [run_eq_runRoutes r req url hurl,
      runRoutes_first r.state req url r.routes i hi hmatch hbefore, hres]

/-- Witness for C5: a matched handler that fails propagates its error as
the router's result. -/
theorem run_handler_result_verbatim_witness :
    errRouter.run reqGetHello = .error "handler failure" :=
  run_handler_result_verbatim errRouter reqGetHello urlHello 0 (by decide)
    (.error "handler failure") rfl (by decide)
    (fun k hk => absurd hk (Nat.not_lt_zero k)) rfl

/-- Claim C6: for a router built from new_with_state and any chain of
registrations, the state field is still the constructed state, and the
handler invoked by dispatch receives exactly that state — the router never
replaces or rebuilds it. -/
theorem run_state_identity {State : Type} (s : State)
    (ins : List (Method × Pattern × Handler State)) (req : Request) (url : Url) (i : Nat)
    (hi : i < (applyInserts (Router.new_with_state s) ins).routes.length)
    (hurl : req.url = .ok url)
    (hmatch : routeMatches ((applyInserts (Router.new_with_state s) ins).routes.get ⟨i, hi⟩) req url)
    (hbefore : ∀ k (hk : k < i),
      ¬ routeMatches ((applyInserts (Router.new_with_state s) ins).routes.get ⟨k, Nat.lt_trans hk hi⟩) req url) :
    (applyInserts (Router.new_with_state s) ins).state = s ∧
    (applyInserts (Router.new_with_state s) ins).run req =
      ((applyInserts (Router.new_with_state s) ins).routes.get ⟨i, hi⟩).handler req s := by
  have hstate : (applyInserts (Router.new_with_state s) ins).state = s :=
    applyInserts_state (Router.new_with_state s) ins
  refine ⟨hstate, ?_⟩
  rw [run_eq_runRoutes _ req url hurl,
      runRoutes_first _ req url _ i hi hmatch hbefore, hstate]

/-- Witness for C6: a one-route chain; the handler runs against the
constructed state. -/
theorem run_state_identity_witness :
    (applyInserts (Router.new_with_state demoState) demoInserts).state = demoState ∧
    (applyInserts (Router.new_with_state demoState) demoInserts).run reqGetHello =
      .ok { status := 200, body := "first" } := by
  have h := run_state_identity demoState demoInserts reqGetHello urlHello 0 (by decide) rfl
    (by decide) (fun k hk => absurd hk (Nat.not_lt_zero k))
  exact ⟨h.1, h.2.trans rfl⟩

/-- Claim C7: every registration appends exactly one route at the end of the
list, leaves the earlier routes and the state unchanged, always succeeds
structurally, returns the router for chaining, and every per-method entry
point delegates to the one shared insert. -/
theorem insert_appends_route {State : Type} (r : Router State) (m : Method)
    (p : Pattern) (h : Handler State) :
    (r.insert m p h).routes = r.routes ++ [{ pattern := p, handler := h, method := m }] ∧
    (r.insert m p h).state = r.state ∧
    r.head p h = r.insert Method.Head p h ∧
    r.get p h = r.insert Method.Get p h ∧
    r.post p h = r.insert Method.Post p h ∧
    r.put p h = r.insert Method.Put p h ∧
    r.patch p h = r.insert Method.Patch p h ∧
    r.delete p h = r.insert Method.Delete p h ∧
    r.options p h = r.insert Method.Options p h ∧
    r.connect p h = r.insert Method.Connect p h ∧
    r.trace p h = r.insert Method.Trace p h :=
  ⟨rfl, rfl, rfl, rfl, rfl, rfl, rfl, rfl, rfl, rfl, rfl⟩

/-- Claim C8: pattern compilation succeeds exactly on well-formed templates
and fails with an error on malformed ones, synchronously — path is a pure
function whose failure is visible before any route is registered. -/
theorem path_wellformed_sync (v : String) :
    ((∃ p, path v = .ok p) ↔ wellFormedTemplate v) ∧
    (¬ wellFormedTemplate v → ∃ e, path v = .error e) := by
  have hiff : (∃ p, path v = .ok p) ↔ wellFormedTemplate v := path_ok_iff_wellFormed v
  refine ⟨hiff, fun hbad => ?_⟩
  cases h : compileSegments (splitPath v) with
  | ok segs => exact absurd (hiff.mp ⟨Pattern.mk segs, path_ok v segs h⟩) hbad
  | error e => exact ⟨e, path_err v e h⟩

/-- Witness for C8: a well-formed template compiles; a malformed one (bare
parameter sigil) fails with an error. -/
theorem path_wellformed_sync_witness :
    (∃ p, path "/users/:id" = Except.ok p) ∧ (∃ e, path "/users/:" = Except.error e) :=
  ⟨(path_wellformed_sync "/users/:id").1.mpr (by decide),
   (path_wellformed_sync "/users/:").2 (by decide)⟩

/-- Claim C9: pattern compilation is deterministic and idempotent — two
successful compilations of the same template yield matchers with identical
match behavior on every input URL. -/
theorem path_deterministic (v : String) (p q : Pattern) (url : Url)
    (h1 : path v = .ok p) (h2 : path v = .ok q) :
    p.exec url = q.exec url := by
  have h : Except.ok p = Except.ok q := h1.symm.trans h2
  rw [Except.ok.inj h]

/-- Witness for C9: both compilations of "/users/:id" behave identically on
a concrete URL. -/
theorem path_deterministic_witness :
    patUserId.exec urlUser42 = patUserId.exec urlUser42 :=
  path_deterministic "/users/:id" patUserId patUserId urlUser42 (by decide) (by decide)

end WorkerRouter
